import Mathlib

/-!
Verification of the film-harvesting engine of the Film_Project repository
(filmGrab.py and filmGather.py) against its natural-language specification.

The Python code is shallowly embedded as follows.

* The filmGrab object is the record GrabState; attributes that Python sets
  dynamically are Option-valued (none = attribute never assigned).
* BeautifulSoup pages are abstracted as oracles: a PrimaryPage / SecondaryPage
  record stores, for each DOM query that the parser performs, the outcome of
  that query -- either a raised Python exception (Except.error) or the value
  the query returns.  Python exceptions are the PyExc record.
* Parser methods return Except PyExc GrabState: Except.error models a Python
  exception escaping the method (uncaught), Except.ok the normal return.
* The network is an oracle Nat → AttemptRes assigning to each attempt number
  the behaviour of that requests.get call.
* The retrying decorator (retry with stop_after_attempt 5, wait_fixed 500,
  retry_on_exception = timeout-or-connection) is embedded from the retrying
  1.3.x library used by the code: with the default wrap_exception = False the
  decorator re-raises the last exception once the stop criterion is met; it
  raises RetryError only when wrap_exception is True, which filmGrab.py does
  not set.
* The batch scheduler (filmGather.main) is embedded as a generator of the
  ordered trace of scheduling events it performs.
* The lock-protected writers (filmGather.fail / success) are embedded as a
  fine-grained interleaving machine in which each byte write is a separate
  step, so that mutual exclusion is proved and not assumed.
-/

/-! ## String helpers (literal-pattern re.search, strip, float) -/

/-- Does the first list occur at the head of the second one? -/
def listStartsWith : List Char → List Char → Bool
  | [], _ => true
  | _ :: _, [] => false
  | a :: as, b :: bs => a == b && listStartsWith as bs

/-- Does the first list occur contiguously anywhere inside the second one? -/
def listHasSub (n : List Char) : List Char → Bool
  | [] => listStartsWith n []
  | b :: t => listStartsWith n (b :: t) || listHasSub n t

/-- Embeds re.search of a literal pattern (every pattern the code searches --
"TV", "Video", "country", "language", "Directed", "Writing", "Cast" -- is
metacharacter-free): true iff the pattern occurs as a substring. -/
def reSearch (needle hay : String) : Bool :=
  listHasSub needle.toList hay.toList

/-- Numeric value of a list of decimal digit characters (most significant
first), as Python int parsing of a digit run. -/
def natOfDigits (l : List Char) : Nat :=
  l.foldl (fun a c => 10 * a + (c.toNat - 48)) 0

/-- Embeds Python float(s) for the strings reaching it in filmGrab.py (digits
and dots, commas already removed): at most one dot, digits elsewhere, at
least one digit; none models a ValueError. The value is exact as a rational
(the runtimes involved are small enough that the IEEE double is exact). -/
def pyFloat (l : List Char) : Option ℚ :=
  match l.splitOn '.' with
  | [a] =>
      if a ≠ [] ∧ a.all (·.isDigit) then some (natOfDigits a) else none
  | [a, b] =>
      if (a ≠ [] ∨ b ≠ []) ∧ a.all (·.isDigit) ∧ b.all (·.isDigit) then
        some ((natOfDigits a : ℚ) + (natOfDigits b : ℚ) / ((10 : ℚ) ^ b.length))
      else none
  | _ => none

/-- Greedy match, at the current position, of the source regex at
filmGrab.py:185.  The source line there reads
timeRX=re.compile('\d+[,]*\d*[\.]*\d*' and is missing its closing
parenthesis (a SyntaxError); the pattern itself is taken verbatim from that
line: one or more digits, then any commas, then any digits, then any dots,
then any digits.  All five parts are greedy runs over disjoint character
classes, so the regex engine never backtracks and the match is a sequence of
takeWhile runs. -/
def timeMatchHere (l : List Char) : List Char :=
  let p1 := l.span (·.isDigit)
  let p2 := p1.2.span (· == ',')
  let p3 := p2.2.span (·.isDigit)
  let p4 := p3.2.span (· == '.')
  let p5 := p4.2.span (·.isDigit)
  p1.1 ++ p2.1 ++ p3.1 ++ p4.1 ++ p5.1

/-- First match returned by timeRX.findall: the regex requires a leading
digit, so the first match starts at the first digit of the text; none models
an empty findall result (so that indexing it raises IndexError). -/
def timeTokenFrom : List Char → Option (List Char)
  | [] => none
  | c :: t => if c.isDigit then some (timeMatchHere (c :: t)) else timeTokenFrom t

/-- Python whitespace test of str.strip (space, tab, newline, carriage
return, vertical tab, form feed). -/
def isPySpace (c : Char) : Bool :=
  c == ' ' || c == '\t' || c == '\n' || c == '\r' || c == '\x0b' || c == '\x0c'

/-- Embeds str.strip(): removes leading and trailing whitespace. -/
def pyStrip (s : String) : String :=
  String.mk (((s.data.dropWhile isPySpace).reverse.dropWhile isPySpace).reverse)

/-! ## Python exceptions and the filmGrab object -/

/-- A Python exception instance: str(type(inst)), str(inst.args), str(inst),
and whether the dynamic class is (a subclass of) AttributeError, which is the
only class the parser's except clauses distinguish. -/
structure PyExc where
  ty : String
  args : String
  msg : String
  isAttr : Bool
deriving DecidableEq, Repr

/-- The AttributeError raised by attribute access on None. -/
def pyAttrExc : PyExc :=
  { ty := "<type 'exceptions.AttributeError'>"
    args := "(\"'NoneType' object has no attribute\",)"
    msg := "'NoneType' object has no attribute"
    isAttr := true }

/-- The IndexError raised by indexing an empty contents list. -/
def pyIndexExc : PyExc :=
  { ty := "<type 'exceptions.IndexError'>"
    args := "('list index out of range',)"
    msg := "list index out of range"
    isAttr := false }

/-- The KeyError raised by detail.attrs when the link has no href attribute. -/
def pyKeyExc : PyExc :=
  { ty := "<type 'exceptions.KeyError'>"
    args := "('href',)"
    msg := "'href'"
    isAttr := false }

/-- The ValueError raised by float() on a non-numeric token. -/
def pyValueExc : PyExc :=
  { ty := "<type 'exceptions.ValueError'>"
    args := "('invalid literal for float()',)"
    msg := "invalid literal for float()"
    isAttr := false }

/-- The attributes of a filmGrab object (filmGrab.py).  idnum, failed and
state are always assigned; the data attributes are assigned as parsing
progresses, so they are Option-valued here. -/
structure GrabState where
  idnum : Nat
  failed : Bool
  state : String
  name : Option String := none
  date : Option String := none
  time : Option ℚ := none
  country : Option (List String) := none
  language : Option (List String) := none
  genre : Option (List String) := none
  writer : Option (List String) := none
  director : Option (List String) := none
  same : Option Bool := none
deriving DecidableEq, Repr

/-- The state of a filmGrab object right after the first two assignments of
its constructor (failed = False, state = "Empty"). -/
def initState (i : Nat) : GrabState :=
  { idnum := i, failed := false, state := "Empty" }

/-- Embeds the method filmGrab._fail: sets failed to True and state to msg.
(The Python method also returns True; that value is only ever propagated as
the return of the enclosing method, where it is unobserved, so it is dropped
here.) -/
def failSet (s : GrabState) (msg : String) : GrabState :=
  { s with failed := true, state := msg }

/-- Diagnostic string built by all the broad except-Exception handlers of the
parser: "Unknown Error:" + str(type(inst)) + "+" + str(inst.args) + "+" +
str(inst). -/
def diag (e : PyExc) : String :=
  "Unknown Error:" ++ e.ty ++ "+" ++ e.args ++ "+" ++ e.msg

/-- Embeds the repeated except-clause pair of _getPrimaryData and
_getSecondaryData: except AttributeError gives _fail("NA"), except Exception
gives the diagnostic _fail. -/
def handleExc (s : GrabState) (e : PyExc) : GrabState :=
  if e.isAttr then failSet s "NA" else failSet s (diag e)

/-! ## Page oracles for the two parsed pages -/

/-- One anchor element of the titleDetails block: its href attribute (none
means the attribute is absent, so that detail.attrs raises KeyError) and its
contents list (the text of each child node). -/
structure ALink where
  href : Option String
  contents : List String
deriving DecidableEq, Repr

/-- Oracle for the DOM queries _getPrimaryData performs on the primary page,
in source order.  Except.error e means the query expression raised e inside
the try block wrapping it; Except.ok carries the value it returned.
For infobar, some s is the element with decode() = s and none is a missing
element (find returned None).  The three contents-list queries yield the
found element's contents (none = element absent).  details is the list of
anchors of the titleDetails block (error = the block is absent, so that
None.find_all raised AttributeError).  genreDiv is the list of anchors of
the genre block, each given by its contents. -/
structure PrimaryPage where
  infobar : Except PyExc (Option String)
  h1NameSpan : Except PyExc (Option (List String))
  h1A : Except PyExc (Option (List String))
  duration : Except PyExc (Option (List String))
  details : Except PyExc (List ALink)
  genreDiv : Except PyExc (Option (List (List String)))
deriving Repr

/-- Embeds the country/language loop of _getPrimaryData: for each detail
anchor, read attrs (KeyError when href is absent escapes the method -- the
loop is outside every try block), then append contents to the country list
when the href contains "country" and to the language list when it contains
"language" (both ifs run; a link matching neither never touches contents). -/
def scanLinks : List ALink → Except PyExc (List String × List String)
  | [] => .ok ([], [])
  | l :: rest =>
    match l.href with
    | none => .error pyKeyExc
    | some h =>
      let doCountry := reSearch "country" h
      let doLang := reSearch "language" h
      if doCountry || doLang then
        match l.contents with
        | [] => .error pyIndexExc
        | c0 :: _ =>
          match scanLinks rest with
          | .error e => .error e
          | .ok (cs, ls) =>
            .ok ((if doCountry then [pyStrip c0] else []) ++ cs,
                 (if doLang then [pyStrip c0] else []) ++ ls)
      else scanLinks rest

/-- Embeds the genre loop of _getPrimaryData: gen.contents[0].strip() for
each anchor of the genre block (IndexError on an empty contents escapes --
the loop is outside every try block). -/
def collectGenres : List (List String) → Except PyExc (List String)
  | [] => .ok []
  | g :: rest =>
    match g with
    | [] => .error pyIndexExc
    | c0 :: _ =>
      match collectGenres rest with
      | .error e => .error e
      | .ok gs => .ok (pyStrip c0 :: gs)

/-- Embeds filmGrab._getPrimaryData.  The page argument is None exactly when
the fetch failed (then the method already returned at the failed guard) or
returned a _fail value; calling find on such a value raises AttributeError,
which the first try block converts to _fail("NA").  Source-order walk:

1. the failed guard;
2. the infobar lookup (try: AttributeError gives "NA", anything else the
   diagnostic); medium.decode() sits outside the try, so a missing infobar
   raises AttributeError to the caller; then the TV/Video check;
3. the h1 name-span lookup (try); getName == None gives
   _fail("Couldn't find name and date"); contents[0].strip() sits outside
   the try, so an empty contents raises IndexError to the caller;
4. the h1 anchor lookup for the date (the whole expression is inside the
   try, so a missing anchor is AttributeError giving "NA" and an empty
   contents is IndexError falling to the diagnostic branch);
5. the duration lookup (try); getTime == None gives "NA"; contents[0],
   findall()[0] and float() sit outside the try and raise to the caller;
6. the titleDetails anchors (try) and the country/language loop (outside);
7. genre = [] is assigned, then the genre lookup (try); None gives "NA";
   the genre loop sits outside the try. -/
def getPrimaryData (s : GrabState) (pg : Option PrimaryPage) : Except PyExc GrabState :=
  if s.failed then .ok s else
  match pg with
  | none => .ok (failSet s "NA")
  | some p =>
  match p.infobar with
  | .error e => .ok (handleExc s e)
  | .ok none => .error pyAttrExc
  | .ok (some mediumTxt) =>
  if reSearch "TV" mediumTxt || reSearch "Video" mediumTxt then .ok (failSet s "NA") else
  match p.h1NameSpan with
  | .error e => .ok (handleExc s e)
  | .ok none => .ok (failSet s "Couldn't find name and date")
  | .ok (some []) => .error pyIndexExc
  | .ok (some (nm0 :: _)) =>
  let s := { s with name := some (pyStrip nm0) }
  match p.h1A with
  | .error e => .ok (handleExc s e)
  | .ok none => .ok (handleExc s pyAttrExc)
  | .ok (some []) => .ok (handleExc s pyIndexExc)
  | .ok (some (d0 :: _)) =>
  let s := { s with date := some d0 }
  match p.duration with
  | .error e => .ok (handleExc s e)
  | .ok none => .ok (failSet s "NA")
  | .ok (some []) => .error pyIndexExc
  | .ok (some (t0 :: _)) =>
  match timeTokenFrom t0.toList with
  | none => .error pyIndexExc
  | some tok =>
  match pyFloat (tok.filter (· ≠ ',')) with
  | none => .error pyValueExc
  | some q =>
  let s := { s with time := some q }
  match p.details with
  | .error e => .ok (handleExc s e)
  | .ok links =>
  match scanLinks links with
  | .error e => .error e
  | .ok (cs, ls) =>
  let s := { s with country := some cs, language := some ls, genre := some [] }
  match p.genreDiv with
  | .error e => .ok (handleExc s e)
  | .ok none => .ok (failSet s "NA")
  | .ok (some gens) =>
  match collectGenres gens with
  | .error e => .error e
  | .ok gs => .ok { s with genre := some gs, state := "Primary data gained" }

/-- One element of the sibling walk of _getSecondaryData: text is
tmp.contents[0] as handed to re.search (error = IndexError on an empty
contents, or TypeError when the first child is not a string); cells is the
list of td.name cells of the element, each given by the value of
name.a.contents[0] (error = AttributeError when the cell has no anchor, or
IndexError on an empty anchor). -/
structure Sib where
  text : Except PyExc String
  cells : List (Except PyExc String)
deriving Repr

/-- Result of the credits lookup of _getSecondaryData.  The try block wraps
both the find call and credits.h4, so Except.error covers a missing
fullcredits block (AttributeError from None.h4) as well as any other raise;
noH4 is a present block without an h4 child (tmp starts as None and the walk
is skipped); chain gives the h4 element followed by its successive siblings
in document order. -/
inductive CreditsRes
  | noH4
  | chain (sibs : List Sib)
deriving Repr

/-- Oracle for the single DOM query tree of _getSecondaryData. -/
structure SecondaryPage where
  credits : Except PyExc CreditsRes
deriving Repr

/-- Embeds the inner for loop over tmp.find_all("td", class name):
name.a.contents[0].strip() for each cell, any raise escaping (the loop is
outside every try block). -/
def collectCells : List (Except PyExc String) → Except PyExc (List String)
  | [] => .ok []
  | c :: rest =>
    match c with
    | .error e => .error e
    | .ok n =>
      match collectCells rest with
      | .error e => .error e
      | .ok ns => .ok (pyStrip n :: ns)

/-- Embeds one iteration of the while loop of _getSecondaryData.  tmp is the
current element and rest its following siblings.  The Directed branch
advances tmp to the next sibling (raising AttributeError when there is none,
as Python does on None.find_all) and appends its cells to the directors; the
Writing check then runs on the advanced tmp, symmetrically for the writers;
the Cast check breaks; otherwise tmp advances once more.  Returns (continue?,
siblings after the new tmp position, directors, writers). -/
def credBody (tmp0 : Sib) (rest0 : List Sib) (ds0 ws0 : List String) :
    Except PyExc (Bool × List Sib × List String × List String) := do
  let mut tmp := tmp0
  let mut rest := rest0
  let mut ds := ds0
  let mut ws := ws0
  let t1 ← tmp.text
  if reSearch "Directed" t1 then
    match rest with
    | [] => throw pyAttrExc
    | tbl :: r2 =>
      let names ← collectCells tbl.cells
      ds := ds ++ names
      tmp := tbl
      rest := r2
  let t2 ← tmp.text
  if reSearch "Writing" t2 then
    match rest with
    | [] => throw pyAttrExc
    | tbl :: r2 =>
      let names ← collectCells tbl.cells
      ws := ws ++ names
      tmp := tbl
      rest := r2
  let t3 ← tmp.text
  if reSearch "Cast" t3 then
    return (false, rest, ds, ws)
  return (true, rest, ds, ws)

/-- Embeds the while loop of _getSecondaryData over the sibling chain.  Each
iteration consumes at least one element of the chain, so fuel equal to the
chain length makes the fuel floor unreachable. -/
def credLoop : Nat → List Sib → List String → List String →
    Except PyExc (List String × List String)
  | _, [], ds, ws => .ok (ds, ws)
  | 0, _ :: _, ds, ws => .ok (ds, ws)
  | fuel + 1, tmp :: rest, ds, ws =>
    match credBody tmp rest ds ws with
    | .error e => .error e
    | .ok (cont, rest', ds', ws') =>
      if cont then credLoop fuel rest' ds' ws' else .ok (ds', ws')

/-- Embeds np.in1d(self.writer, self.director).any(): true iff some writer
name equals (exactly, case sensitively) some director name. -/
def inOneD (ws ds : List String) : Bool :=
  ws.any fun w => ds.contains w

/-- Embeds filmGrab._getSecondaryData: the failed guard; the assignments
director = [] and writer = []; the credits lookup (try: AttributeError gives
"NA", anything else the diagnostic); the sibling walk (outside the try, so
its raises escape to the caller); the emptiness check giving "NA"; and the
success assignments of same and state.  A None page (fetch failed earlier
with failed somehow unset, or the _fail return value True) makes the find
call raise AttributeError inside the try, so it maps to "NA". -/
def getSecondaryData (s : GrabState) (pg : Option SecondaryPage) :
    Except PyExc GrabState :=
  if s.failed then .ok s else
  let s1 := { s with director := some [], writer := some [] }
  match pg with
  | none => .ok (failSet s1 "NA")
  | some p =>
  match p.credits with
  | .error e => .ok (handleExc s1 e)
  | .ok .noH4 => .ok (failSet s1 "NA")
  | .ok (.chain sibs) =>
  match credLoop sibs.length sibs [] [] with
  | .error e => .error e
  | .ok (dirs, wris) =>
    let s2 := { s1 with director := some dirs, writer := some wris }
    if wris = [] ∨ dirs = [] then .ok (failSet s2 "NA")
    else .ok { s2 with same := some (inOneD wris dirs), state := "all data gained" }

/-! ## The page fetcher (filmGrab._getPageInt / _getPage with the retrying
decorator) -/

/-- Exceptions that can escape the body of _getPageInt: only Timeout and
ConnectionError are re-raised by its except clauses (every other exception
class is converted to a _fail return; KeyboardInterrupt is outside the
model). -/
inductive NetExc
  | timeoutE
  | connE
deriving DecidableEq, Repr

/-- Behaviour of one requests.get call: raise a timeout, raise a connection
error, raise a socket error, raise some other exception, or return a
response with the given status code and (already soup-parsed) body.
requests.get never raises requests.HTTPError itself (that class is raised
only by Response.raise_for_status, which the code never calls), so the dead
except-HTTPError clause of _getPageInt has no constructor here. -/
inductive AttemptRes (α : Type)
  | timeout
  | connErr
  | socketErr
  | otherExc (e : PyExc)
  | response (status : Nat) (body : α)

/-- Observable side effects of the fetcher: one request event per
requests.get call, carrying the timeout argument (5 seconds), and one sleep
event per inter-attempt wait (wait_fixed = 500 milliseconds). -/
inductive FetchEv
  | request (timeoutSecs : Nat)
  | sleepMs (ms : Nat)
deriving DecidableEq, Repr

/-- Timeout argument of every requests.get call (seconds). -/
def requestTimeoutSecs : Nat := 5

/-- stop_max_attempt_number of the retry decoration: total attempts. -/
def retryMaxAttempts : Nat := 5

/-- wait_fixed of the retry decoration (milliseconds). -/
def retryWaitMs : Nat := 500

/-- Embeds the body of _getPageInt past the failed guard, for one attempt:
the try/except ladder around page = requests.get(address, timeout = 5).
Sum.inl is an exception escaping the body (re-raised Timeout or
ConnectionError, both satisfying retry_if_timeout_or_connection_error);
Sum.inr is a normal return: socket.error gives _fail("socket error"), any
other exception gives the "Unknown Exception:" diagnostic _fail, a non-200
status gives _fail(str(status_code)), and a 200 response sets state to
"Page <address> Accessed" and returns the soup. -/
def attemptOutcome (addr : String) (s : GrabState) :
    AttemptRes α → NetExc ⊕ (GrabState × Option α)
  | .timeout => .inl .timeoutE
  | .connErr => .inl .connE
  | .socketErr => .inr (failSet s "socket error", none)
  | .otherExc e =>
      .inr (failSet s ("Unknown Exception:" ++ e.ty ++ "+" ++ e.args ++ "+" ++ e.msg), none)
  | .response st body =>
      if st ≠ 200 then .inr (failSet s (toString st), none)
      else .inr ({ s with state := "Page " ++ addr ++ " Accessed" }, some body)

/-- Embeds the retry loop of the retrying 1.3.x decorator around the body of
_getPageInt, starting at the given attempt number with the given number of
further attempts allowed.  An exception matching
retry_if_timeout_or_connection_error is retried after a fixed 500 ms sleep
until stop_after_attempt(5); at the stop, because filmGrab.py leaves
wrap_exception at its default False, the decorator re-raises the original
exception (RetryError is raised only under wrap_exception = True), modelled
by Except.error.  The event list records each requests.get call and each
inter-attempt sleep. -/
def retryFetch (addr : String) (s : GrabState) (net : Nat → AttemptRes α) :
    Nat → Nat → Except NetExc (GrabState × Option α) × List FetchEv
  | attemptNo, fuel =>
    match attemptOutcome addr s (net attemptNo) with
    | .inr r => (.ok r, [.request requestTimeoutSecs])
    | .inl e =>
      match fuel with
      | 0 => (.error e, [.request requestTimeoutSecs])
      | fuel + 1 =>
        let rec' := retryFetch addr s net (attemptNo + 1) fuel
        (rec'.1, .request requestTimeoutSecs :: .sleepMs retryWaitMs :: rec'.2)

/-- Embeds the decorated _getPageInt: the failed guard returns immediately
(no requests.get call, hence no events), otherwise the retry loop runs from
attempt 1 with 4 further attempts allowed (5 total). -/
def getPageInt (addr : String) (s : GrabState) (net : Nat → AttemptRes α) :
    Except NetExc (GrabState × Option α) × List FetchEv :=
  if s.failed then (.ok (s, none), [])
  else retryFetch addr s net 1 (retryMaxAttempts - 1)

/-- Embeds filmGrab._getPage: calls _getPageInt and catches RetryError only.
Because the decorator never raises RetryError (wrap_exception is left
False), the except clause is dead, _fail("timeoutOrConnenction") is
unreachable, and a Timeout or ConnectionError surviving all five attempts
propagates to the caller of _getPage. -/
def getPage (addr : String) (s : GrabState) (net : Nat → AttemptRes α) :
    Except NetExc (GrabState × Option α) × List FetchEv :=
  getPageInt addr s net

/-! ## The entry worker (filmGrab.__init__ and filmGather.doFilm) -/

/-- An exception escaping the filmGrab constructor: a network exception
surviving the fetchers retries, or a Python exception escaping a parser. -/
inductive RunExc
  | net (e : NetExc)
  | py (e : PyExc)
deriving DecidableEq, Repr

/-- Primary page address built by the constructor. -/
def urlPrim (i : Nat) : String :=
  "http://www.imdb.com/title/tt" ++ toString i ++ "/"

/-- Secondary (full credits) page address built by the constructor. -/
def urlSec (i : Nat) : String :=
  urlPrim i ++ "fullcredits"

/-- Embeds filmGrab.__init__(idnum): initial assignments, primary fetch,
primary parse, secondary fetch, secondary parse -- each fetch or parse
passing the state (and the fetched page) on, any exception aborting the
constructor.  Returns the result together with the event lists of the
primary and of the secondary fetch. -/
def filmGrabRun (i : Nat) (primNet : Nat → AttemptRes PrimaryPage)
    (secNet : Nat → AttemptRes SecondaryPage) :
    Except RunExc GrabState × List FetchEv × List FetchEv :=
  let s0 := initState i
  let r1 := getPage (urlPrim i) s0 primNet
  match r1.1 with
  | .error e => (.error (.net e), r1.2, [])
  | .ok (s1, pg1) =>
    match getPrimaryData s1 pg1 with
    | .error e => (.error (.py e), r1.2, [])
    | .ok s2 =>
      let r3 := getPage (urlSec i) s2 secNet
      match r3.1 with
      | .error e => (.error (.net e), r1.2, r3.2)
      | .ok (s3, pg2) =>
        match getSecondaryData s3 pg2 with
        | .error e => (.error (.py e), r1.2, r3.2)
        | .ok s4 => (.ok s4, r1.2, r3.2)

/-- A line appended to one of the two output files.  A failure row is the
string str(i) + tab + msg written by filmGather.fail; a data row is the
record written by filmGather.success (its tab-separated rendering is not
needed by any claim, so the row carries the record itself). -/
inductive Row
  | failRow (id : Nat) (reason : String)
  | dataRow (id : Nat) (st : GrabState)
deriving DecidableEq, Repr

/-- Embeds filmGather.doFilm(i): runs filmGrab(i) and dispatches.  An
exception escaping the constructor kills the daemon thread, so no row is
written; a failed state with state different from "NA" is passed to fail
(exactly one failure row); a failed state equal to "NA" is dropped; a
successful state is passed to success (exactly one data row). -/
def doFilmRows (i : Nat) (res : Except RunExc GrabState) : List Row :=
  match res with
  | .error _ => []
  | .ok st =>
    if st.failed then
      if st.state ≠ "NA" then [.failRow i st.state] else []
    else [.dataRow i st]

/-! ## The batch scheduler (filmGather.main) -/

/-- One scheduling action of filmGather.main, in the order performed:
starting a thread for an id, joining it with the 3-second bound, writing a
"ThreadTimeout" failure line for an id still alive after the joins, and the
inter-batch time.sleep. -/
inductive SchedEv
  | spawn (id : Nat)
  | joinEv (id : Nat) (timeoutSecs : Nat)
  | failLine (id : Nat) (reason : String)
  | sleepSec (secs : Nat)
deriving DecidableEq, Repr

/-- Batch size of the sweep (stepsize = 200). -/
def stepsize : Nat := 200

/-- Per-thread join bound (thread.join(3.)), in seconds. -/
def joinBoundSecs : Nat := 3

/-- Inter-batch cooldown (time.sleep(5)), in seconds. -/
def cooldownSecs : Nat := 5

/-- Number of batches of the sweep: range(1, 1000001, 200) has 5000 values. -/
def batchCount : Nat := 5000

/-- Embeds one iteration of the batch loop of main, started at id j, as the
ordered trace of its actions.  alive i abstracts the value of
threads[i - j].isAlive() at the drain check following the joins (true = the
worker was still unfinished when its join bound elapsed and it was checked);
exactly those ids get a "ThreadTimeout" failure line, via the same fail
function as every other failure.  The batch ends with the fixed cooldown
sleep. -/
def batchTrace (alive : Nat → Bool) (j : Nat) : List SchedEv :=
  ((List.range stepsize).map fun k => SchedEv.spawn (j + k))
    ++ ((List.range stepsize).map fun k => SchedEv.joinEv (j + k) joinBoundSecs)
    ++ (((List.range stepsize).filter fun k => alive (j + k)).map
          fun k => SchedEv.failLine (j + k) "ThreadTimeout")
    ++ [SchedEv.sleepSec cooldownSecs]

/-- The batch start ids: range(1, 1000001, 200). -/
def batchStarts : List Nat :=
  (List.range batchCount).map fun n => 1 + stepsize * n

/-- Embeds the whole sweep of main as the concatenated trace of its batches,
in loop order. -/
def mainTrace (alive : Nat → Bool) : List SchedEv :=
  (batchStarts.map (batchTrace alive)).flatten

/-- Recognizes the "ThreadTimeout" failure line of a given id. -/
def isTTFor (id : Nat) : SchedEv → Bool
  | .failLine i r => i == id && r == "ThreadTimeout"
  | _ => false

/-- The id an event concerns, when it concerns one. -/
def evId : SchedEv → Option Nat
  | .spawn i => some i
  | .joinEv i _ => some i
  | .failLine i _ => some i
  | .sleepSec _ => none

/-! ## The output sinks (filmGather.fail / success under the three locks)

Each of the N concurrent callers of fail (the same machine covers success
with the two destinations swapped) performs two critical sections in order:
acquire the file lock, write its file line byte by byte, release; then
acquire the screen lock, write its screen line byte by byte, release.  A
scheduler step picks a caller and runs its next machine action; an acquire
of a held lock leaves the state unchanged (the thread blocks). -/

/-- Progress of one writer thread: before its first acquire; holding lock A
with the given bytes still to write; between the two critical sections;
holding lock B likewise; finished. -/
inductive WPhase
  | start
  | inA (t : List Char)
  | mid
  | inB (t : List Char)
  | doneW
deriving DecidableEq, Repr

/-- Shared state: the two lock owners, the two append-only byte sequences,
and each writer's phase. -/
structure CSt (N : Nat) where
  lockA : Option (Fin N)
  lockB : Option (Fin N)
  fileA : List Char
  fileB : List Char
  ph : Fin N → WPhase

/-- One scheduler step running writer k's next action, where lineA k and
lineB k are the lines writer k appends to the two destinations. -/
def lockStep (lineA lineB : Fin N → List Char) (s : CSt N) (k : Fin N) : CSt N :=
  match s.ph k with
  | .start =>
    match s.lockA with
    | none => { s with lockA := some k, ph := Function.update s.ph k (.inA (lineA k)) }
    | some _ => s
  | .inA [] => { s with lockA := none, ph := Function.update s.ph k .mid }
  | .inA (c :: t) => { s with fileA := s.fileA ++ [c], ph := Function.update s.ph k (.inA t) }
  | .mid =>
    match s.lockB with
    | none => { s with lockB := some k, ph := Function.update s.ph k (.inB (lineB k)) }
    | some _ => s
  | .inB [] => { s with lockB := none, ph := Function.update s.ph k .doneW }
  | .inB (c :: t) => { s with fileB := s.fileB ++ [c], ph := Function.update s.ph k (.inB t) }
  | .doneW => s

/-- The state before any writer has run: both locks free, both destinations
empty (the claim concerns the bytes the N callers append; prior file
contents prepend unchanged and are elided). -/
def lockInit (N : Nat) : CSt N :=
  { lockA := none, lockB := none, fileA := [], fileB := [], ph := fun _ => .start }

/-- A complete run of the two-destination machine under an arbitrary
interleaving: the scheduler executes the callers' actions in the order given
by sched. -/
def lockRun (lineA lineB : Fin N → List Char) (sched : List (Fin N)) : CSt N :=
  sched.foldl (lockStep lineA lineB) (lockInit N)

/-- Has the writer completed its destination-A critical section? -/
def doneA : WPhase → Prop
  | .mid => True
  | .inB _ => True
  | .doneW => True
  | _ => False

/-- Has the writer completed its destination-B critical section? -/
def doneB : WPhase → Prop
  | .doneW => True
  | _ => False

/-- Mutual-exclusion invariant of destination A: some completion order d of
the writers that have finished their A-section exists such that fileA is
exactly the concatenation of their full lines, extended by the written
prefix of the current lock holder's line when the lock is held, and only the
holder is inside the A-section. -/
def InvA (lineA : Fin N → List Char) (s : CSt N) : Prop :=
  ∃ d : List (Fin N), d.Nodup ∧ (∀ k, k ∈ d ↔ doneA (s.ph k)) ∧
    (match s.lockA with
     | none => s.fileA = (d.map lineA).flatten ∧ ∀ k t, s.ph k ≠ .inA t
     | some h => ∃ p t, lineA h = p ++ t ∧ s.ph h = .inA t ∧
         s.fileA = (d.map lineA).flatten ++ p ∧
         ∀ k t', s.ph k = .inA t' → k = h)

/-- Mutual-exclusion invariant of destination B, symmetric to InvA. -/
def InvB (lineB : Fin N → List Char) (s : CSt N) : Prop :=
  ∃ d : List (Fin N), d.Nodup ∧ (∀ k, k ∈ d ↔ doneB (s.ph k)) ∧
    (match s.lockB with
     | none => s.fileB = (d.map lineB).flatten ∧ ∀ k t, s.ph k ≠ .inB t
     | some h => ∃ p t, lineB h = p ++ t ∧ s.ph h = .inB t ∧
         s.fileB = (d.map lineB).flatten ++ p ∧
         ∀ k t', s.ph k = .inB t' → k = h)

/-- Concrete file lines of two concurrent fail callers (ids 1 and 2), used
to instantiate the interleaving machine. -/
def wLineA : Fin 2 → List Char :=
  fun k => if k = 0 then "1\tE1\n".data else "2\tE2\n".data

/-- Concrete console lines of the same two callers. -/
def wLineB : Fin 2 → List Char :=
  fun k => if k = 0 then "1 E1\n".data else "2 E2\n".data

/-- A concrete alternating schedule of the two callers (long enough that
both finish; acquire attempts on a held lock are blocking no-ops). -/
def wSched : List (Fin 2) :=
  (List.range 40).map fun i => if i % 2 = 0 then (0 : Fin 2) else 1

/-! ## Concrete pages shared by the developments -/

/-- A concrete in-scope primary page: a film page (its infobar text has no
"TV" or "Video" marker) with title "Carmencita", year 1894, runtime
"45 min", no country or language links and two genres. -/
def goodPrim : PrimaryPage :=
  { infobar := .ok (some "1894 Documentary 45 min")
    h1NameSpan := .ok (some ["Carmencita "])
    h1A := .ok (some ["1894"])
    duration := .ok (some ["45 min"])
    details := .ok []
    genreDiv := .ok (some [["Documentary"], ["Short"]]) }

/-- A concrete full-credits page: a Directed heading followed by its name
table, a Writing heading followed by its name table, then the Cast heading
that stops the walk. -/
def goodSec : SecondaryPage :=
  { credits := .ok (.chain [
      ⟨.ok "Directed by", []⟩,
      ⟨.ok "\n", [.ok "William K.L. Dickson"]⟩,
      ⟨.ok "Writing Credits", []⟩,
      ⟨.ok "\n", [.ok "William K.L. Dickson ", .ok "Jane Doe"]⟩,
      ⟨.ok "Cast", []⟩ ]) }

/-! ## Helper lemmas -/

theorem listStartsWith_append (n b : List Char) : listStartsWith n (n ++ b) = true := by
  induction n with
  | nil => simp [listStartsWith]
  | cons c t ih => simp [listStartsWith, ih]

theorem listHasSub_of_startsWith (n h : List Char) (hs : listStartsWith n h = true) :
    listHasSub n h = true := by
  cases h with
  | nil => simpa [listHasSub] using hs
  | cons c t => simp [listHasSub, hs]

theorem listHasSub_cons (n : List Char) (c : Char) (t : List Char)
    (h : listHasSub n t = true) : listHasSub n (c :: t) = true := by
  simp [listHasSub, h]

theorem listHasSub_app (a n b : List Char) : listHasSub n (a ++ (n ++ b)) = true := by
  induction a with
  | nil => exact listHasSub_of_startsWith _ _ (listStartsWith_append n b)
  | cons c cs ih => exact listHasSub_cons _ _ _ ih

theorem inOneD_eq_true_iff (ws ds : List String) :
    inOneD ws ds = true ↔ ∃ x, x ∈ ws ∧ x ∈ ds := by
  simp [inOneD, List.any_eq_true, List.contains, List.elem_iff]

/-! ## Claim C3 -/

/-- C3: for every successfully parsed record, the writer/director-overlap
flag (same) is true exactly when the writers list and the directors list
share at least one common name string under case-sensitive exact string
equality, and false otherwise. -/
theorem c3_writer_director_overlap (s : GrabState) (pg : Option SecondaryPage)
    (st : GrabState) (hrun : getSecondaryData s pg = .ok st)
    (hok : st.failed = false) (hst : st.state = "all data gained") :
    ∃ ws ds, st.writer = some ws ∧ st.director = some ds ∧
      st.same = some (inOneD ws ds) ∧
      (st.same = some true ↔ ∃ x, x ∈ ws ∧ x ∈ ds) := by
  unfold getSecondaryData at hrun
  split at hrun
  · cases hrun
    simp_all
  · split at hrun
    · cases hrun; simp_all [failSet]
    · split at hrun
      · cases hrun
        simp [handleExc, failSet, apply_ite GrabState.failed] at hok
      · cases hrun; simp_all [failSet]
      · split at hrun
        · exact absurd hrun (by simp)
        · split at hrun
          · cases hrun; simp_all [failSet]
          · cases hrun
            refine ⟨_, _, rfl, rfl, rfl, ?_⟩
            simp [inOneD_eq_true_iff]

/-- Witness for C3 at the concrete credits page goodSec. -/
theorem c3_writer_director_overlap_witness :
    ∃ st, getSecondaryData { initState 1 with state := "Primary data gained" }
        (some goodSec) = .ok st ∧ st.failed = false ∧ st.state = "all data gained" ∧
      ∃ ws ds, st.writer = some ws ∧ st.director = some ds ∧
        st.same = some (inOneD ws ds) ∧
        (st.same = some true ↔ ∃ x, x ∈ ws ∧ x ∈ ds) := by
  refine
    ⟨{ idnum := 1, failed := false, state := "all data gained",
       writer := some ["William K.L. Dickson", "Jane Doe"],
       director := some ["William K.L. Dickson"], same := some true }, ?h1, rfl, rfl, ?h2⟩
  case h1 => rfl
  case h2 =>
    exact c3_writer_director_overlap { initState 1 with state := "Primary data gained" }
      (some goodSec) _ rfl rfl rfl

/-! ## Claim C10 -/

/-- C10: for every primary page that passes the medium check (no TV or Video
marker in its medium text) and yields a title, a year, a runtime and a genre
list, an empty set of country links or an empty set of language links does
not cause a failure: the parse still succeeds and the countries and/or
languages fields of the record are the corresponding empty lists -- unlike a
missing title, runtime or genre block, each of which fails the parse (the
final three conjuncts).  The second conjunct records that a details block
with no anchors at all scans to empty country and language lists. -/
theorem c10_empty_links_still_succeed (s : GrabState) (hs : s.failed = false)
    (p : PrimaryPage) (m : String) (hm : p.infobar = .ok (some m))
    (htv : (reSearch "TV" m || reSearch "Video" m) = false)
    (n0 : String) (nrest : List String) (d0 : String) (drest : List String)
    (t0 : String) (trest : List String) (tok : List Char) (q : ℚ)
    (links : List ALink) (cs ls : List String)
    (gens : List (List String)) (gs : List String) :
    (p.h1NameSpan = .ok (some (n0 :: nrest)) → p.h1A = .ok (some (d0 :: drest)) →
      p.duration = .ok (some (t0 :: trest)) → timeTokenFrom t0.toList = some tok →
      pyFloat (tok.filter (· ≠ ',')) = some q → p.details = .ok links →
      scanLinks links = .ok (cs, ls) → cs = [] ∨ ls = [] →
      p.genreDiv = .ok (some gens) → collectGenres gens = .ok gs →
      getPrimaryData s (some p) =
        .ok { s with
                name := some (pyStrip n0), date := some d0, time := some q,
                country := some cs, language := some ls, genre := some gs,
                state := "Primary data gained" })
  ∧ scanLinks [] = .ok ([], [])
  ∧ (p.h1NameSpan = .ok (some (n0 :: nrest)) → p.h1A = .ok (some (d0 :: drest)) →
      p.duration = .ok (some (t0 :: trest)) → timeTokenFrom t0.toList = some tok →
      pyFloat (tok.filter (· ≠ ',')) = some q → p.details = .ok links →
      scanLinks links = .ok (cs, ls) → p.genreDiv = .ok none →
      getPrimaryData s (some p) =
        .ok (failSet
          { s with
              name := some (pyStrip n0), date := some d0, time := some q,
              country := some cs, language := some ls, genre := some [] } "NA"))
  ∧ (p.h1NameSpan = .ok (some (n0 :: nrest)) → p.h1A = .ok (some (d0 :: drest)) →
      p.duration = .ok none →
      getPrimaryData s (some p) =
        .ok (failSet { s with name := some (pyStrip n0), date := some d0 } "NA"))
  ∧ (p.h1NameSpan = .ok none →
      getPrimaryData s (some p) = .ok (failSet s "Couldn't find name and date")) := by
  refine ⟨fun h1 h2 h3 h4 h5 h6 h7 _hempty h8 h9 => ?_, rfl,
    fun h1 h2 h3 h4 h5 h6 h7 h8 => ?_, fun h1 h2 h3 => ?_, fun h1 => ?_⟩
  · simp only [ne_eq, decide_not, String.toList] at h4 h5
    simp [getPrimaryData, hs, hm, htv, h1, h2, h3, h4, h5, h6, h7, h8, h9]
  · simp only [ne_eq, decide_not, String.toList] at h4 h5
    simp [getPrimaryData, hs, hm, htv, h1, h2, h3, h4, h5, h6, h7, h8]
  · simp [getPrimaryData, hs, hm, htv, h1, h2, h3]
  · simp [getPrimaryData, hs, hm, htv, h1]

/-- Witness for C10 at the concrete page goodPrim, whose details block has
no country or language link at all. -/
theorem c10_empty_links_still_succeed_witness :
    ((initState 1).failed = false
      ∧ goodPrim.infobar = .ok (some "1894 Documentary 45 min")
      ∧ (reSearch "TV" "1894 Documentary 45 min"
          || reSearch "Video" "1894 Documentary 45 min") = false
      ∧ goodPrim.h1NameSpan = .ok (some ["Carmencita "])
      ∧ goodPrim.h1A = .ok (some ["1894"])
      ∧ goodPrim.duration = .ok (some ["45 min"])
      ∧ timeTokenFrom "45 min".toList = some "45".toList
      ∧ pyFloat ("45".toList.filter (· ≠ ',')) = some 45
      ∧ goodPrim.details = .ok []
      ∧ scanLinks [] = .ok ([], [])
      ∧ (([] : List String) = [] ∨ ([] : List String) = [])
      ∧ goodPrim.genreDiv = .ok (some [["Documentary"], ["Short"]])
      ∧ collectGenres [["Documentary"], ["Short"]] = .ok ["Documentary", "Short"])
  ∧ getPrimaryData (initState 1) (some goodPrim) =
      .ok { initState 1 with
              name := some (pyStrip "Carmencita "), date := some "1894",
              time := some 45, country := some [], language := some [],
              genre := some ["Documentary", "Short"],
              state := "Primary data gained" } := by
  refine ⟨⟨rfl, rfl, by decide, rfl, rfl, rfl, rfl, rfl, rfl, rfl, Or.inl rfl, rfl, rfl⟩, ?_⟩
  exact (c10_empty_links_still_succeed (initState 1) rfl goodPrim
      "1894 Documentary 45 min" rfl (by decide) "Carmencita " [] "1894" [] "45 min" []
      "45".toList 45 [] [] [] [["Documentary"], ["Short"]] ["Documentary", "Short"]).1
      rfl rfl rfl rfl rfl rfl rfl (Or.inl rfl) rfl rfl

/-! ## Claim C8 -/

/-- C8: the runtime extraction intended at filmGrab.py:182-196 (the source
line 185 itself is missing its closing parenthesis and is a SyntaxError; the
regex is embedded verbatim from that line): the duration text "1,234 min"
parses to the leading numeric token "1,234", the comma is removed, and the
runtime becomes the float 1234.0; a missing duration element is
_fail("NA"). -/
theorem c8_runtime_thousands_separator :
    getPrimaryData (initState 1) (some { goodPrim with duration := .ok (some ["1,234 min"]) }) =
      .ok { idnum := 1, failed := false, state := "Primary data gained",
            name := some "Carmencita", date := some "1894", time := some 1234,
            country := some [], language := some [],
            genre := some ["Documentary", "Short"] }
  ∧ timeTokenFrom "1,234 min".toList = some "1,234".toList
  ∧ pyFloat ("1,234".toList.filter (· ≠ ',')) = some 1234
  ∧ getPrimaryData (initState 1) (some { goodPrim with duration := .ok none }) =
      .ok (failSet
        { initState 1 with name := some "Carmencita", date := some "1894" } "NA") :=
  ⟨rfl, rfl, rfl, rfl⟩

/-! ## Claim C9 -/

/-- C9 counterexample: a primary page whose h1 heading is present but whose
title span is absent (the find returns None) fails with the reason string
"Couldn't find name and date", not "NA" -- refuting the claim that a title
that cannot be found always yields the reason "NA". -/
theorem c9_counterexample :
    getPrimaryData (initState 3) (some { goodPrim with h1NameSpan := .ok none }) =
      .ok (failSet (initState 3) "Couldn't find name and date")
  ∧ "Couldn't find name and date" ≠ "NA" :=
  ⟨rfl, by decide⟩

/-- C9 amended: when the title lookup raises AttributeError (the h1 heading
itself is missing) the parse fails with "NA"; when the heading is present
but the title span is absent the parse fails with "Couldn't find name and
date"; when the year anchor lookup raises AttributeError or the anchor is
absent the parse fails with "NA". -/
theorem c9_title_year_failures (s : GrabState) (p : PrimaryPage) (m : String)
    (hs : s.failed = false) (hm : p.infobar = .ok (some m))
    (htv : (reSearch "TV" m || reSearch "Video" m) = false) :
    (p.h1NameSpan = .error pyAttrExc → getPrimaryData s (some p) = .ok (failSet s "NA"))
  ∧ (p.h1NameSpan = .ok none →
      getPrimaryData s (some p) = .ok (failSet s "Couldn't find name and date"))
  ∧ (∀ n0 rest, p.h1NameSpan = .ok (some (n0 :: rest)) → p.h1A = .error pyAttrExc →
      getPrimaryData s (some p) =
        .ok (failSet { s with name := some (pyStrip n0) } "NA"))
  ∧ (∀ n0 rest, p.h1NameSpan = .ok (some (n0 :: rest)) → p.h1A = .ok none →
      getPrimaryData s (some p) =
        .ok (failSet { s with name := some (pyStrip n0) } "NA")) := by
  refine ⟨fun h1 => ?_, fun h1 => ?_, fun n0 rest h1 h2 => ?_, fun n0 rest h1 h2 => ?_⟩ <;>
    simp [getPrimaryData, handleExc, pyAttrExc, *]

/-- Witness for C9 amended, at concrete pages derived from goodPrim. -/
theorem c9_title_year_failures_witness :
    ((initState 3).failed = false
      ∧ ({ goodPrim with h1NameSpan := .ok none } : PrimaryPage).infobar =
          .ok (some "1894 Documentary 45 min")
      ∧ (reSearch "TV" "1894 Documentary 45 min"
          || reSearch "Video" "1894 Documentary 45 min") = false)
  ∧ (({ goodPrim with h1NameSpan := .ok none } : PrimaryPage).h1NameSpan = .ok none →
      getPrimaryData (initState 3) (some { goodPrim with h1NameSpan := .ok none }) =
        .ok (failSet (initState 3) "Couldn't find name and date")) :=
  ⟨⟨rfl, rfl, by decide⟩,
   (c9_title_year_failures (initState 3) { goodPrim with h1NameSpan := .ok none }
      "1894 Documentary 45 min" rfl rfl (by decide)).2.1⟩

/-! ## Claim C7 -/

/-- C7 counterexample: a primary page without the medium-indicator element
(the infobar find returns None) makes medium.decode() -- which sits outside
every try block of _getPrimaryData -- raise AttributeError, and the
exception propagates to the caller instead of being converted to a hard
failure.  This refutes the claim that parsing never propagates an exception
to the caller. -/
theorem c7_counterexample :
    getPrimaryData (initState 4) (some { goodPrim with infobar := .ok none }) =
      .error pyAttrExc := rfl

/-- C7 amended: an exception raised inside one of the try-wrapped element
lookups of either parser is converted to a hard failure whose diagnostic
string embeds the exception's type and arguments (exceptions raised by the
extraction steps outside those try blocks, such as decoding a missing
medium element, propagate instead).  Stated for every non-AttributeError
exception e raised at each of the seven wrapped lookups of any page whose
earlier steps succeeded; the final two conjuncts show the diagnostic
contains the type and the argument strings of the exception. -/
theorem c7_wrapped_lookups_diagnosed (e : PyExc) (he : e.isAttr = false)
    (s : GrabState) (hs : s.failed = false) (p : PrimaryPage) (m : String)
    (hm : (reSearch "TV" m || reSearch "Video" m) = false)
    (n0 : String) (nrest : List String) (d0 : String) (drest : List String)
    (t0 : String) (trest : List String) (tok : List Char) (q : ℚ)
    (links : List ALink) (cs ls : List String) :
    (p.infobar = .error e → getPrimaryData s (some p) = .ok (failSet s (diag e)))
  ∧ (p.infobar = .ok (some m) → p.h1NameSpan = .error e →
      getPrimaryData s (some p) = .ok (failSet s (diag e)))
  ∧ (p.infobar = .ok (some m) → p.h1NameSpan = .ok (some (n0 :: nrest)) →
      p.h1A = .error e →
      getPrimaryData s (some p) =
        .ok (failSet { s with name := some (pyStrip n0) } (diag e)))
  ∧ (p.infobar = .ok (some m) → p.h1NameSpan = .ok (some (n0 :: nrest)) →
      p.h1A = .ok (some (d0 :: drest)) → p.duration = .error e →
      getPrimaryData s (some p) =
        .ok (failSet { s with name := some (pyStrip n0), date := some d0 } (diag e)))
  ∧ (p.infobar = .ok (some m) → p.h1NameSpan = .ok (some (n0 :: nrest)) →
      p.h1A = .ok (some (d0 :: drest)) → p.duration = .ok (some (t0 :: trest)) →
      timeTokenFrom t0.toList = some tok → pyFloat (tok.filter (· ≠ ',')) = some q →
      p.details = .error e →
      getPrimaryData s (some p) =
        .ok (failSet
          { s with name := some (pyStrip n0), date := some d0, time := some q } (diag e)))
  ∧ (p.infobar = .ok (some m) → p.h1NameSpan = .ok (some (n0 :: nrest)) →
      p.h1A = .ok (some (d0 :: drest)) → p.duration = .ok (some (t0 :: trest)) →
      timeTokenFrom t0.toList = some tok → pyFloat (tok.filter (· ≠ ',')) = some q →
      p.details = .ok links → scanLinks links = .ok (cs, ls) →
      p.genreDiv = .error e →
      getPrimaryData s (some p) =
        .ok (failSet
          { s with
              name := some (pyStrip n0), date := some d0, time := some q,
              country := some cs, language := some ls, genre := some [] } (diag e)))
  ∧ (getSecondaryData s (some ⟨.error e⟩) =
      .ok (failSet { s with director := some [], writer := some [] } (diag e)))
  ∧ reSearch e.ty (diag e) = true
  ∧ reSearch e.args (diag e) = true := by
  have hsub : ∀ (x : String) (a b : String),
      reSearch x (a ++ (x ++ b)) = true := by
    intro x a b
    have := listHasSub_app a.toList x.toList b.toList
    simpa [reSearch, String.toList] using this
  refine ⟨?_, ?_, ?_, ?_, ?_, ?_, ?_, ?_, ?_⟩
  · intro h1
    simp [getPrimaryData, handleExc, he, hs, h1]
  · intro h1 h2
    simp [getPrimaryData, handleExc, he, hs, hm, h1, h2]
  · intro h1 h2 h3
    simp [getPrimaryData, handleExc, he, hs, hm, h1, h2, h3]
  · intro h1 h2 h3 h4
    simp [getPrimaryData, handleExc, he, hs, hm, h1, h2, h3, h4]
  · intro h1 h2 h3 h4 h5 h6 h7
    simp only [ne_eq, decide_not, String.toList] at h5 h6
    simp [getPrimaryData, handleExc, he, hs, hm, h1, h2, h3, h4, h5, h6, h7]
  · intro h1 h2 h3 h4 h5 h6 h7 h8 h9
    simp only [ne_eq, decide_not, String.toList] at h5 h6
    simp [getPrimaryData, handleExc, he, hs, hm, h1, h2, h3, h4, h5, h6, h7, h8, h9]
  · simp [getSecondaryData, handleExc, he, hs]
  · simpa [diag, String.append_assoc] using
      hsub e.ty "Unknown Error:" ("+" ++ (e.args ++ ("+" ++ e.msg)))
  · simpa [diag, String.append_assoc] using
      hsub e.args ("Unknown Error:" ++ (e.ty ++ "+")) ("+" ++ e.msg)

/-- Witness for C7 amended: the medium lookup raising a ValueError is
diagnosed. -/
theorem c7_wrapped_lookups_diagnosed_witness :
    (pyValueExc.isAttr = false ∧ (initState 4).failed = false
      ∧ (reSearch "TV" "x" || reSearch "Video" "x") = false)
  ∧ (({ goodPrim with infobar := .error pyValueExc } : PrimaryPage).infobar =
        .error pyValueExc →
      getPrimaryData (initState 4) (some { goodPrim with infobar := .error pyValueExc }) =
        .ok (failSet (initState 4) (diag pyValueExc))) :=
  ⟨⟨rfl, rfl, by decide⟩,
   (c7_wrapped_lookups_diagnosed pyValueExc rfl (initState 4) rfl
      { goodPrim with infobar := .error pyValueExc } "x" (by decide)
      "" [] "" [] "" [] [] 0 [] [] []).1⟩

/-! ## Claim C1 -/

/-- C1 counterexample: an entry whose primary page passes the medium check
(its infobar mentions neither TV nor Video, so the entry is not a soft
failure) but lacks the duration element ends as a hard failure with reason
"NA", and doFilm then writes no row at all to the failure file -- refuting
the claim that every hard failure is written there. -/
theorem c1_counterexample :
    (filmGrabRun 7 (fun _ => .response 200 { goodPrim with duration := .ok none })
        (fun _ => .response 200 goodSec)).1 =
      .ok (failSet
        { initState 7 with name := some "Carmencita", date := some "1894" } "NA")
  ∧ doFilmRows 7 (filmGrabRun 7
        (fun _ => .response 200 { goodPrim with duration := .ok none })
        (fun _ => .response 200 goodSec)).1 = []
  ∧ reSearch "TV" "1894 Documentary 45 min" = false
  ∧ reSearch "Video" "1894 Documentary 45 min" = false :=
  ⟨rfl, rfl, by decide, by decide⟩

/-- C1 amended: doFilm writes exactly one row (id and reason) to the failure
file exactly for outcomes whose failed flag is set and whose reason differs
from "NA"; every outcome with reason "NA" -- all soft failures (non-film
entries), but also the hard failures whose reason happens to be "NA" -- is
never written; an exception escaping the constructor also writes nothing.
The final conjunct shows every soft failure (TV or Video medium) indeed
carries the reason "NA". -/
theorem c1_failure_rows (i : Nat) (res : Except RunExc GrabState) (st : GrabState)
    (h : res = .ok st) :
    (st.failed = true → st.state ≠ "NA" → doFilmRows i res = [.failRow i st.state])
  ∧ (st.failed = true → st.state = "NA" → doFilmRows i res = [])
  ∧ (st.failed = false → doFilmRows i res = [.dataRow i st])
  ∧ (∀ e, doFilmRows i (.error e) = [])
  ∧ (∀ s p m, s.failed = false → p.infobar = .ok (some m) →
      (reSearch "TV" m || reSearch "Video" m) = true →
      getPrimaryData s (some p) = .ok (failSet s "NA")) := by
  refine ⟨fun hf hna => ?_, fun hf hna => ?_, fun hf => ?_, fun e => rfl,
    fun s p m hs hm htv => ?_⟩
  · simp [doFilmRows, h, hf, hna]
  · simp [doFilmRows, h, hf, hna]
  · simp [doFilmRows, h, hf]
  · simp [getPrimaryData, hs, hm, htv]

/-- Witness for C1 amended at a concrete hard failure with a non-"NA"
reason: a 404 primary response. -/
theorem c1_failure_rows_witness :
    ((filmGrabRun 9 (fun _ => .response 404 goodPrim)
        (fun _ => .response 200 goodSec)).1 = .ok (failSet (initState 9) "404")
      ∧ (failSet (initState 9) "404").failed = true
      ∧ (failSet (initState 9) "404").state ≠ "NA")
  ∧ doFilmRows 9 (filmGrabRun 9 (fun _ => .response 404 goodPrim)
        (fun _ => .response 200 goodSec)).1 = [.failRow 9 "404"] :=
  ⟨⟨rfl, rfl, by decide⟩,
   (c1_failure_rows 9 _ (failSet (initState 9) "404") rfl).1 rfl (by decide)⟩

/-! ## Claim C2 -/

/-- C2: behaviour of _getPage under the retry decoration, evaluated at the
failing input and at permanent failures.  First conjunct: a fetch whose five
attempts all raise Timeout performs exactly five requests (each with the
5-second timeout) separated by four fixed 500 ms sleeps, and then the
Timeout is re-raised out of _getPage (the retrying decorator, with
wrap_exception left False, re-raises the last exception rather than
RetryError, so the except-RetryError handler and its
_fail("timeoutOrConnenction") are dead code) instead of returning a failure
value.  Remaining conjuncts: a non-200 status, a socket error and an
arbitrary other exception are permanent failures recorded after exactly one
request, carrying the status code or error description. -/
theorem c2_retry_policy :
    getPage "u" (initState 2) (fun _ => (.timeout : AttemptRes PrimaryPage)) =
      (.error .timeoutE,
        [.request 5, .sleepMs 500, .request 5, .sleepMs 500, .request 5,
         .sleepMs 500, .request 5, .sleepMs 500, .request 5])
  ∧ getPage "u" (initState 2) (fun _ => (.connErr : AttemptRes PrimaryPage)) =
      (.error .connE,
        [.request 5, .sleepMs 500, .request 5, .sleepMs 500, .request 5,
         .sleepMs 500, .request 5, .sleepMs 500, .request 5])
  ∧ getPage "u" (initState 2) (fun _ => (.response 404 goodPrim : AttemptRes PrimaryPage)) =
      (.ok (failSet (initState 2) "404", none), [.request 5])
  ∧ getPage "u" (initState 2) (fun _ => (.socketErr : AttemptRes PrimaryPage)) =
      (.ok (failSet (initState 2) "socket error", none), [.request 5])
  ∧ (∀ e : PyExc, getPage "u" (initState 2) (fun _ => (.otherExc e : AttemptRes PrimaryPage)) =
      (.ok (failSet (initState 2)
          ("Unknown Exception:" ++ e.ty ++ "+" ++ e.args ++ "+" ++ e.msg), none),
        [.request 5])) :=
  ⟨rfl, rfl, rfl, rfl, fun _ => rfl⟩

/-! ## Claim C6 -/

/-- C6 counterexample: an entry whose primary fetch times out on all five
attempts does not end as a hard failure -- the Timeout is re-raised out of
the fetch and escapes the constructor (the whole tuple is evaluated: an
exception outcome, the five request events, and no secondary event).  The
no-secondary-fetch and frame parts of the claim hold, but the outcome is an
escaped exception, not a hard failure carrying a classification. -/
theorem c6_counterexample :
    filmGrabRun 5 (fun _ => .timeout) (fun _ => .response 200 goodSec) =
      (.error (.net .timeoutE),
        [.request 5, .sleepMs 500, .request 5, .sleepMs 500, .request 5,
         .sleepMs 500, .request 5, .sleepMs 500, .request 5], []) := rfl

/-- C6 amended: for every entry whose primary fetch fails with a permanent
classification (socket error, non-200 status, unexpected exception -- the
cases that set the failed flag), the constructor returns exactly the state
recorded at the failure (every field unchanged by the remaining steps) and
performs no secondary fetch (no secondary event at all); for every entry
whose primary parse is a soft failure (TV or Video medium), the outcome is
that soft failure (only failed and state change) and again no secondary
fetch is performed. -/
theorem c6_primary_failure_skips_secondary (i : Nat)
    (primNet : Nat → AttemptRes PrimaryPage) (secNet : Nat → AttemptRes SecondaryPage)
    (s1 : GrabState) (pg : Option PrimaryPage) (ev : List FetchEv)
    (hfetch : getPage (urlPrim i) (initState i) primNet = (.ok (s1, pg), ev)) :
    (s1.failed = true → filmGrabRun i primNet secNet = (.ok s1, ev, []))
  ∧ (∀ p m, pg = some p → s1.failed = false → p.infobar = .ok (some m) →
      (reSearch "TV" m || reSearch "Video" m) = true →
      filmGrabRun i primNet secNet = (.ok (failSet s1 "NA"), ev, [])) := by
  constructor
  · intro hf
    have h2 : getPage (urlSec i) s1 secNet = (.ok (s1, none), []) := by
      simp [getPage, getPageInt, hf]
    have h3 : getPrimaryData s1 pg = .ok s1 := by
      simp [getPrimaryData, hf]
    have h4 : getSecondaryData s1 none = .ok s1 := by
      simp [getSecondaryData, hf]
    simp [filmGrabRun, hfetch, h2, h3, h4]
  · intro p m hp hf hm htv
    subst hp
    have h3 : getPrimaryData s1 (some p) = .ok (failSet s1 "NA") := by
      simp [getPrimaryData, hf, hm, htv]
    have h2 : getPage (urlSec i) (failSet s1 "NA") secNet =
        (.ok (failSet s1 "NA", none), []) := by
      simp [getPage, getPageInt, failSet]
    have h4 : getSecondaryData (failSet s1 "NA") none = .ok (failSet s1 "NA") := by
      simp [getSecondaryData, failSet]
    simp [filmGrabRun, hfetch, h3, h2, h4]

/-- Witness for C6 amended: a 404 primary response gives a hard failure
carrying "404", untouched by the remaining steps, with no secondary fetch. -/
theorem c6_primary_failure_skips_secondary_witness :
    (getPage (urlPrim 9) (initState 9) (fun _ => (.response 404 goodPrim)) =
        (.ok (failSet (initState 9) "404", none), [.request 5])
      ∧ (failSet (initState 9) "404").failed = true)
  ∧ filmGrabRun 9 (fun _ => .response 404 goodPrim) (fun _ => .response 200 goodSec) =
      (.ok (failSet (initState 9) "404"), [.request 5], []) :=
  ⟨⟨rfl, rfl⟩,
   (c6_primary_failure_skips_secondary 9 (fun _ => .response 404 goodPrim)
      (fun _ => .response 200 goodSec) (failSet (initState 9) "404") none
      [.request 5] rfl).1 rfl⟩

/-! ## Claim C4 -/

theorem countP_range_shift (j id : Nat) (q : Nat → Bool) :
    ∀ n, (List.range n).countP (fun k => (j + k == id) && q (j + k)) =
      if j ≤ id ∧ id < j + n ∧ q id = true then 1 else 0 := by
  intro n
  induction n with
  | zero =>
    have hno : ¬(j ≤ id ∧ id < j ∧ q id = true) := by
      rintro ⟨a, b, -⟩
      omega
    simp [hno]
  | succ n ih =>
    rw [List.range_succ, List.countP_append, ih]
    have hsing : List.countP (fun k => (j + k == id) && q (j + k)) [n] =
        if j + n = id ∧ q id = true then 1 else 0 := by
      by_cases h : j + n = id
      · simp [List.countP_cons, h]
      · simp [List.countP_cons, h]
    rw [hsing]
    by_cases hq : q id = true
    · by_cases h1 : j ≤ id ∧ id < j + n
      · have h2 : ¬(j + n = id) := by omega
        have h3 : j ≤ id ∧ id < j + (n + 1) := by omega
        simp [h1, h2, h3, hq]
      · by_cases h2 : j + n = id
        · have h3 : j ≤ id ∧ id < j + (n + 1) := by omega
          simp [h1, h2, h3, hq]
        · have h3 : ¬(j ≤ id ∧ id < j + (n + 1)) := by omega
          simp [h1, h2, h3, hq]
    · simp [hq]

theorem countP_batchTrace (alive : Nat → Bool) (j id : Nat) :
    (batchTrace alive j).countP (isTTFor id) =
      if j ≤ id ∧ id < j + stepsize ∧ alive id = true then 1 else 0 := by
  unfold batchTrace
  rw [List.countP_append, List.countP_append, List.countP_append]
  have h1 : (((List.range stepsize).map fun k => SchedEv.spawn (j + k)).countP
      (isTTFor id)) = 0 := by
    rw [List.countP_map]
    simp [Function.comp, isTTFor]
  have h2 : (((List.range stepsize).map fun k =>
      SchedEv.joinEv (j + k) joinBoundSecs).countP (isTTFor id)) = 0 := by
    rw [List.countP_map]
    simp [Function.comp, isTTFor]
  have h3 : List.countP (isTTFor id) [SchedEv.sleepSec cooldownSecs] = 0 := by
    simp [isTTFor]
  have h4 : ((((List.range stepsize).filter fun k => alive (j + k)).map
      fun k => SchedEv.failLine (j + k) "ThreadTimeout").countP (isTTFor id)) =
      if j ≤ id ∧ id < j + stepsize ∧ alive id = true then 1 else 0 := by
    rw [List.countP_map, List.countP_filter]
    rw [← countP_range_shift j id alive stepsize]
    apply List.countP_congr
    intro k _
    simp [Function.comp, isTTFor]
  rw [h1, h2, h3, h4]
  simp

theorem sum_batch_indicator (id : Nat) (c : Bool) :
    ∀ b, ((List.range b).map fun n =>
        if 1 + stepsize * n ≤ id ∧ id < 1 + stepsize * n + stepsize ∧ c = true
        then 1 else 0).sum =
      if 1 ≤ id ∧ id < 1 + stepsize * b ∧ c = true then 1 else 0 := by
  intro b
  induction b with
  | zero =>
    have hno : ¬(1 ≤ id ∧ id = 0 ∧ c = true) := by
      rintro ⟨a, b, -⟩
      omega
    simp [hno]
  | succ b ih =>
    rw [List.range_succ, List.map_append, List.sum_append, ih]
    simp only [List.map_cons, List.map_nil, List.sum_cons, List.sum_nil, stepsize] at *
    by_cases hc : c = true
    · by_cases h1 : 1 ≤ id ∧ id < 1 + 200 * b
      · have h2 : ¬(1 + 200 * b ≤ id ∧ id < 1 + 200 * b + 200 ∧ c = true) := by
          rintro ⟨a, -, -⟩
          omega
        have h3 : 1 ≤ id ∧ id < 1 + 200 * (b + 1) := by
          constructor
          · exact h1.1
          · have := h1.2
            omega
        simp [h1, h2, h3, hc]
      · by_cases h2 : 1 + 200 * b ≤ id ∧ id < 1 + 200 * b + 200
        · have h3 : 1 ≤ id ∧ id < 1 + 200 * (b + 1) := by
            constructor
            · omega
            · have := h2.2
              omega
          simp [h1, h2, h3, hc]
        · have h3 : ¬(1 ≤ id ∧ id < 1 + 200 * (b + 1)) := by
            intro h4
            rcases h4 with ⟨h5, h6⟩
            rcases Nat.lt_or_ge id (1 + 200 * b) with h7 | h7
            · exact h1 ⟨h5, h7⟩
            · exact h2 ⟨h7, by omega⟩
          simp [h1, h2, h3, hc]
    · simp [hc]

theorem mem_batchTrace_id_bound (alive : Nat → Bool) (j : Nat) (e : SchedEv)
    (he : e ∈ batchTrace alive j) (i : Nat) (hi : evId e = some i) :
    j ≤ i ∧ i < j + stepsize := by
  unfold batchTrace at he
  simp only [List.mem_append, List.mem_map, List.mem_filter, List.mem_range,
    List.mem_singleton] at he
  rcases he with ((⟨k, hk, rfl⟩ | ⟨k, hk, rfl⟩) | ⟨k, ⟨hk, -⟩, rfl⟩) | rfl
  · simp only [evId, Option.some.injEq] at hi
    omega
  · simp only [evId, Option.some.injEq] at hi
    omega
  · simp only [evId, Option.some.injEq] at hi
    omega
  · simp [evId] at hi

/-- C4: the batch scheduler of filmGather.main.  First conjunct: for every
id, the full trace contains exactly one "ThreadTimeout" failure line for
that id when the id is in the swept range [1, 1000000] and its worker was
still unfinished (alive) at that batch's drain check, and none otherwise.
Second conjunct: the blocks of consecutive batch indices occur adjacently in
the trace, in order.  Third conjunct: every batch block ends with the fixed
5-second cooldown sleep, which therefore separates it from the next block.
Fourth conjunct: batches proceed in strictly increasing id order -- every id
of an earlier batch's events is smaller than every id of a later batch's
events. -/
theorem c4_batch_scheduler (alive : Nat → Bool) :
    (∀ id, (mainTrace alive).countP (isTTFor id) =
      if 1 ≤ id ∧ id ≤ 1000000 ∧ alive id = true then 1 else 0)
  ∧ (∀ n, n + 1 < batchCount → ∃ pre post,
      mainTrace alive =
        pre ++ batchTrace alive (1 + stepsize * n)
            ++ batchTrace alive (1 + stepsize * (n + 1)) ++ post)
  ∧ (∀ j, (batchTrace alive j).getLast? = some (.sleepSec cooldownSecs))
  ∧ (∀ n1 n2 i1 i2 e1 e2, n1 < n2 → n2 < batchCount →
      e1 ∈ batchTrace alive (1 + stepsize * n1) →
      e2 ∈ batchTrace alive (1 + stepsize * n2) →
      evId e1 = some i1 → evId e2 = some i2 → i1 < i2) := by
  refine ⟨fun id => ?_, fun n hn => ?_, fun j => ?_, fun n1 n2 i1 i2 e1 e2 h12 h2b hm1 hm2 hi1 hi2 => ?_⟩
  · rw [mainTrace, batchStarts, List.countP_flatten, List.map_map, List.map_map]
    simp only [Function.comp_def]
    have hcong : ((List.range batchCount).map
        fun n => List.countP (isTTFor id) (batchTrace alive (1 + stepsize * n))) =
        ((List.range batchCount).map fun n =>
          if 1 + stepsize * n ≤ id ∧ id < 1 + stepsize * n + stepsize ∧ alive id = true
          then 1 else 0) := by
      apply List.map_congr_left
      intro n _
      rw [countP_batchTrace]
    rw [hcong, sum_batch_indicator]
    have : (1 ≤ id ∧ id < 1 + stepsize * batchCount ∧ alive id = true) ↔
        (1 ≤ id ∧ id ≤ 1000000 ∧ alive id = true) := by
      constructor
      · rintro ⟨a, b, c⟩
        refine ⟨a, ?_, c⟩
        simp [stepsize, batchCount] at b
        omega
      · rintro ⟨a, b, c⟩
        refine ⟨a, ?_, c⟩
        simp [stepsize, batchCount]
        omega
    simp only [this]
  · refine ⟨((List.range n).map ((batchTrace alive) ∘ (fun k => 1 + stepsize * k))).flatten,
      (((List.range (batchCount - (n + 2))).map
        ((batchTrace alive) ∘ (fun k => 1 + stepsize * (n + 2 + k)))).flatten), ?_⟩
    rw [mainTrace, batchStarts]
    have hb : batchCount = (n + 2) + (batchCount - (n + 2)) := by
      omega
    rw [hb, List.range_add, List.range_succ, List.range_succ]
    simp only [List.map_append, List.flatten_append, List.map_map, List.map_cons,
      List.map_nil, List.flatten_cons, List.flatten_nil, List.append_nil,
      List.append_assoc, Function.comp_def, Nat.add_sub_cancel_left]
  · unfold batchTrace
    rw [List.getLast?_append, List.getLast?_append, List.getLast?_append]
    simp
  · have hb1 := mem_batchTrace_id_bound alive _ e1 hm1 i1 hi1
    have hb2 := mem_batchTrace_id_bound alive _ e2 hm2 i2 hi2
    have : stepsize * (n1 + 1) ≤ stepsize * n2 := by
      apply Nat.mul_le_mul_left
      omega
    simp [stepsize] at *
    omega

/-- Witness for C4 at a concrete aliveness oracle and concrete batch
indices. -/
theorem c4_batch_scheduler_witness :
    (0 + 1 < batchCount ∧ (1 : Nat) ≤ 5 ∧ (5 : Nat) ≤ 1000000)
  ∧ (∃ pre post, mainTrace (fun i => i == 5) =
      pre ++ batchTrace (fun i => i == 5) (1 + stepsize * 0)
          ++ batchTrace (fun i => i == 5) (1 + stepsize * (0 + 1)) ++ post)
  ∧ (batchTrace (fun i => i == 5) 1).getLast? = some (.sleepSec cooldownSecs)
  ∧ (mainTrace (fun i => i == 5)).countP (isTTFor 5) =
      if 1 ≤ 5 ∧ 5 ≤ 1000000 ∧ (fun i : Nat => i == 5) 5 = true then 1 else 0 := by
  refine ⟨⟨by decide, by decide, by decide⟩, ?_, ?_, ?_⟩
  · exact (c4_batch_scheduler (fun i => i == 5)).2.1 0 (by decide)
  · exact (c4_batch_scheduler (fun i => i == 5)).2.2.1 1
  · exact (c4_batch_scheduler (fun i => i == 5)).1 5

/-! ## Claim C5 -/

theorem invA_of_untouched {N : Nat} (lineA : Fin N → List Char) (s s' : CSt N)
    (h : InvA lineA s) (hlock : s'.lockA = s.lockA) (hfile : s'.fileA = s.fileA)
    (hph : ∀ k t, s'.ph k = .inA t ↔ s.ph k = .inA t)
    (hdone : ∀ k, doneA (s'.ph k) ↔ doneA (s.ph k)) :
    InvA lineA s' := by
  obtain ⟨d, hnd, hmem, hrest⟩ := h
  refine ⟨d, hnd, fun k => (hmem k).trans (hdone k).symm, ?_⟩
  rw [hlock, hfile]
  rcases hl : s.lockA with _ | h0
  · rw [hl] at hrest
    obtain ⟨hfileA, hnoin⟩ := hrest
    exact ⟨hfileA, fun k t hc => hnoin k t ((hph k t).mp hc)⟩
  · rw [hl] at hrest
    obtain ⟨p, t, happ, hph0, hfileA, huniq⟩ := hrest
    exact ⟨p, t, happ, (hph h0 t).mpr hph0, hfileA,
      fun k t' hc => huniq k t' ((hph k t').mp hc)⟩

theorem invB_of_untouched {N : Nat} (lineB : Fin N → List Char) (s s' : CSt N)
    (h : InvB lineB s) (hlock : s'.lockB = s.lockB) (hfile : s'.fileB = s.fileB)
    (hph : ∀ k t, s'.ph k = .inB t ↔ s.ph k = .inB t)
    (hdone : ∀ k, doneB (s'.ph k) ↔ doneB (s.ph k)) :
    InvB lineB s' := by
  obtain ⟨d, hnd, hmem, hrest⟩ := h
  refine ⟨d, hnd, fun k => (hmem k).trans (hdone k).symm, ?_⟩
  rw [hlock, hfile]
  rcases hl : s.lockB with _ | h0
  · rw [hl] at hrest
    obtain ⟨hfileB, hnoin⟩ := hrest
    exact ⟨hfileB, fun k t hc => hnoin k t ((hph k t).mp hc)⟩
  · rw [hl] at hrest
    obtain ⟨p, t, happ, hph0, hfileB, huniq⟩ := hrest
    exact ⟨p, t, happ, (hph h0 t).mpr hph0, hfileB,
      fun k t' hc => huniq k t' ((hph k t').mp hc)⟩

theorem invA_step {N : Nat} (lineA lineB : Fin N → List Char) (s : CSt N) (k : Fin N)
    (h : InvA lineA s) : InvA lineA (lockStep lineA lineB s k) := by
  obtain ⟨d, hnd, hmem, hrest⟩ := h
  unfold lockStep
  split
  case h_1 heq =>
    -- phase start: try to acquire lock A
    split
    case h_1 hlA =>
      rw [hlA] at hrest
      obtain ⟨hfileA, hnoin⟩ := hrest
      refine ⟨d, hnd, ?_, ?_⟩
      · intro k'
        by_cases hk : k' = k
        · subst hk
          have hnot : k' ∉ d := fun hc => by
            have := (hmem k').mp hc
            rw [heq] at this
            simp [doneA] at this
          simp [Function.update_same, doneA, hnot]
        · simp only [CSt.ph, Function.update_noteq hk]
          exact hmem k'
      · refine ⟨[], lineA k, by simp, by simp [Function.update_same], by simpa using hfileA, ?_⟩
        intro k' t' h'
        by_cases hk : k' = k
        · exact hk
        · simp only [CSt.ph, Function.update_noteq hk] at h'
          exact absurd h' (hnoin k' t')
    case h_2 hlA =>
      exact ⟨d, hnd, hmem, hrest⟩
  case h_2 heq =>
    -- phase inA []: release lock A
    rcases hlA : s.lockA with _ | h0
    · rw [hlA] at hrest
      exact absurd heq (hrest.2 k [])
    · rw [hlA] at hrest
      obtain ⟨p, t, happ, hph0, hfileA, huniq⟩ := hrest
      have hk0 : k = h0 := huniq k [] heq
      subst hk0
      rw [heq] at hph0
      have ht : t = [] := by
        cases hph0
        rfl
      subst ht
      rw [List.append_nil] at happ
      have hknotind : k ∉ d := fun hc => by
        have := (hmem k).mp hc
        rw [heq] at this
        simp [doneA] at this
      refine ⟨d ++ [k], ?_, ?_, ?_⟩
      · simp [List.nodup_append, hnd, List.disjoint_singleton]
        intro hc
        exact hknotind hc
      · intro k'
        by_cases hk : k' = k
        · subst hk
          simp [Function.update_same, doneA]
        · simp only [CSt.ph, Function.update_noteq hk]
          simp only [List.mem_append, List.mem_singleton, hk, or_false]
          exact hmem k'
      · refine ⟨?_, ?_⟩
        · simp only [List.map_append, List.map_cons, List.map_nil, List.flatten_append,
            List.flatten_cons, List.flatten_nil, List.append_nil]
          rw [hfileA, happ]
        · intro k' t hc
          by_cases hk : k' = k
          · subst hk
            simp only [CSt.ph, Function.update_same] at hc
            cases hc
          · simp only [CSt.ph, Function.update_noteq hk] at hc
            exact hk (huniq k' t hc)
  case h_3 c t0 heq =>
    -- phase inA (c :: t0): write one byte
    rcases hlA : s.lockA with _ | h0
    · rw [hlA] at hrest
      exact absurd heq (hrest.2 k (c :: t0))
    · rw [hlA] at hrest
      obtain ⟨p, t, happ, hph0, hfileA, huniq⟩ := hrest
      have hk0 : k = h0 := huniq k (c :: t0) heq
      subst hk0
      rw [heq] at hph0
      have ht : t = c :: t0 := by
        cases hph0
        rfl
      subst ht
      refine ⟨d, hnd, ?_, ?_⟩
      · intro k'
        by_cases hk : k' = k
        · subst hk
          have hnot : k' ∉ d := fun hc => by
            have := (hmem k').mp hc
            rw [heq] at this
            simp [doneA] at this
          simp [Function.update_same, doneA, hnot]
        · simp only [CSt.ph, Function.update_noteq hk]
          exact hmem k'
      · dsimp only
        refine ⟨p ++ [c], t0, by simpa [List.append_assoc] using happ,
          by simp [Function.update_same], ?_, ?_⟩
        · rw [hfileA]
          simp [List.append_assoc]
        · intro k' t' hc
          by_cases hk : k' = k
          · exact hk
          · simp only [CSt.ph, Function.update_noteq hk] at hc
            exact huniq k' t' hc
  case h_4 heq =>
    -- phase mid: try to acquire lock B (destination A untouched)
    split
    case h_1 hlB =>
      refine invA_of_untouched lineA s _ ⟨d, hnd, hmem, hrest⟩ rfl rfl ?_ ?_
      · intro k' t
        by_cases hk : k' = k
        · subst hk
          simp only [Function.update_same, heq]
          constructor <;> intro hc <;> cases hc
        · simp only [CSt.ph, Function.update_noteq hk]
      · intro k'
        by_cases hk : k' = k
        · subst hk
          simp [Function.update_same, heq, doneA]
        · simp only [CSt.ph, Function.update_noteq hk]
    case h_2 hlB =>
      exact ⟨d, hnd, hmem, hrest⟩
  case h_5 heq =>
    -- phase inB []: release lock B (destination A untouched)
    refine invA_of_untouched lineA s _ ⟨d, hnd, hmem, hrest⟩ rfl rfl ?_ ?_
    · intro k' t
      by_cases hk : k' = k
      · subst hk
        simp only [Function.update_same, heq]
        constructor <;> intro hc <;> cases hc
      · simp only [CSt.ph, Function.update_noteq hk]
    · intro k'
      by_cases hk : k' = k
      · subst hk
        simp [Function.update_same, heq, doneA]
      · simp only [CSt.ph, Function.update_noteq hk]
  case h_6 c t0 heq =>
    -- phase inB (c :: t0): write one byte to B (destination A untouched)
    refine invA_of_untouched lineA s _ ⟨d, hnd, hmem, hrest⟩ rfl rfl ?_ ?_
    · intro k' t
      by_cases hk : k' = k
      · subst hk
        simp only [Function.update_same, heq]
        constructor <;> intro hc <;> cases hc
      · simp only [CSt.ph, Function.update_noteq hk]
    · intro k'
      by_cases hk : k' = k
      · subst hk
        simp [Function.update_same, heq, doneA]
      · simp only [CSt.ph, Function.update_noteq hk]
  case h_7 heq =>
    exact ⟨d, hnd, hmem, hrest⟩

theorem invB_step {N : Nat} (lineA lineB : Fin N → List Char) (s : CSt N) (k : Fin N)
    (h : InvB lineB s) : InvB lineB (lockStep lineA lineB s k) := by
  obtain ⟨d, hnd, hmem, hrest⟩ := h
  unfold lockStep
  split
  case h_1 heq =>
    -- phase start: acquire attempt on lock A, destination B untouched
    split
    case h_1 hlA =>
      refine invB_of_untouched lineB s _ ⟨d, hnd, hmem, hrest⟩ rfl rfl ?_ ?_
      · intro k' t
        by_cases hk : k' = k
        · subst hk
          simp only [CSt.ph, Function.update_same, heq]
          constructor <;> intro hc <;> cases hc
        · simp only [CSt.ph, Function.update_noteq hk]
      · intro k'
        by_cases hk : k' = k
        · subst hk
          simp [CSt.ph, Function.update_same, heq, doneB]
        · simp only [CSt.ph, Function.update_noteq hk]
    case h_2 hlA =>
      exact ⟨d, hnd, hmem, hrest⟩
  case h_2 heq =>
    -- phase inA []: release of lock A, destination B untouched
    refine invB_of_untouched lineB s _ ⟨d, hnd, hmem, hrest⟩ rfl rfl ?_ ?_
    · intro k' t
      by_cases hk : k' = k
      · subst hk
        simp only [CSt.ph, Function.update_same, heq]
        constructor <;> intro hc <;> cases hc
      · simp only [CSt.ph, Function.update_noteq hk]
    · intro k'
      by_cases hk : k' = k
      · subst hk
        simp [CSt.ph, Function.update_same, heq, doneB]
      · simp only [CSt.ph, Function.update_noteq hk]
  case h_3 c t0 heq =>
    -- phase inA (c :: t0): write to destination A, destination B untouched
    refine invB_of_untouched lineB s _ ⟨d, hnd, hmem, hrest⟩ rfl rfl ?_ ?_
    · intro k' t
      by_cases hk : k' = k
      · subst hk
        simp only [CSt.ph, Function.update_same, heq]
        constructor <;> intro hc <;> cases hc
      · simp only [CSt.ph, Function.update_noteq hk]
    · intro k'
      by_cases hk : k' = k
      · subst hk
        simp [CSt.ph, Function.update_same, heq, doneB]
      · simp only [CSt.ph, Function.update_noteq hk]
  case h_4 heq =>
    -- phase mid: try to acquire lock B
    split
    case h_1 hlB =>
      rw [hlB] at hrest
      obtain ⟨hfileB, hnoin⟩ := hrest
      refine ⟨d, hnd, ?_, ?_⟩
      · intro k'
        by_cases hk : k' = k
        · subst hk
          have hnot : k' ∉ d := fun hc => by
            have := (hmem k').mp hc
            rw [heq] at this
            simp [doneB] at this
          simp [Function.update_same, doneB, hnot]
        · simp only [CSt.ph, Function.update_noteq hk]
          exact hmem k'
      · refine ⟨[], lineB k, by simp, by simp [Function.update_same], by simpa using hfileB, ?_⟩
        intro k' t' h'
        by_cases hk : k' = k
        · exact hk
        · simp only [CSt.ph, Function.update_noteq hk] at h'
          exact absurd h' (hnoin k' t')
    case h_2 hlB =>
      exact ⟨d, hnd, hmem, hrest⟩
  case h_5 heq =>
    -- phase inB []: release lock B
    rcases hlB : s.lockB with _ | h0
    · rw [hlB] at hrest
      exact absurd heq (hrest.2 k [])
    · rw [hlB] at hrest
      obtain ⟨p, t, happ, hph0, hfileB, huniq⟩ := hrest
      have hk0 : k = h0 := huniq k [] heq
      subst hk0
      rw [heq] at hph0
      have ht : t = [] := by
        cases hph0
        rfl
      subst ht
      rw [List.append_nil] at happ
      have hknotind : k ∉ d := fun hc => by
        have := (hmem k).mp hc
        rw [heq] at this
        simp [doneB] at this
      refine ⟨d ++ [k], ?_, ?_, ?_⟩
      · simp [List.nodup_append, hnd, List.disjoint_singleton]
        intro hc
        exact hknotind hc
      · intro k'
        by_cases hk : k' = k
        · subst hk
          simp [Function.update_same, doneB]
        · simp only [CSt.ph, Function.update_noteq hk]
          simp only [List.mem_append, List.mem_singleton, hk, or_false]
          exact hmem k'
      · refine ⟨?_, ?_⟩
        · simp only [List.map_append, List.map_cons, List.map_nil, List.flatten_append,
            List.flatten_cons, List.flatten_nil, List.append_nil]
          rw [hfileB, happ]
        · intro k' t hc
          by_cases hk : k' = k
          · subst hk
            simp only [CSt.ph, Function.update_same] at hc
            cases hc
          · simp only [CSt.ph, Function.update_noteq hk] at hc
            exact hk (huniq k' t hc)
  case h_6 c t0 heq =>
    -- phase inB (c :: t0): write one byte
    rcases hlB : s.lockB with _ | h0
    · rw [hlB] at hrest
      exact absurd heq (hrest.2 k (c :: t0))
    · rw [hlB] at hrest
      obtain ⟨p, t, happ, hph0, hfileB, huniq⟩ := hrest
      have hk0 : k = h0 := huniq k (c :: t0) heq
      subst hk0
      rw [heq] at hph0
      have ht : t = c :: t0 := by
        cases hph0
        rfl
      subst ht
      refine ⟨d, hnd, ?_, ?_⟩
      · intro k'
        by_cases hk : k' = k
        · subst hk
          have hnot : k' ∉ d := fun hc => by
            have := (hmem k').mp hc
            rw [heq] at this
            simp [doneB] at this
          simp [Function.update_same, doneB, hnot]
        · simp only [CSt.ph, Function.update_noteq hk]
          exact hmem k'
      · dsimp only
        refine ⟨p ++ [c], t0, by simpa [List.append_assoc] using happ,
          by simp [Function.update_same], ?_, ?_⟩
        · rw [hfileB]
          simp [List.append_assoc]
        · intro k' t' hc
          by_cases hk : k' = k
          · exact hk
          · simp only [CSt.ph, Function.update_noteq hk] at hc
            exact huniq k' t' hc
  case h_7 heq =>
    exact ⟨d, hnd, hmem, hrest⟩

theorem invA_lockRun {N : Nat} (lineA lineB : Fin N → List Char) :
    ∀ (sched : List (Fin N)) (s : CSt N),
      InvA lineA s → InvA lineA (sched.foldl (lockStep lineA lineB) s)
  | [], _, h => h
  | k :: ks, s, h =>
      invA_lockRun lineA lineB ks (lockStep lineA lineB s k) (invA_step lineA lineB s k h)

theorem invB_lockRun {N : Nat} (lineA lineB : Fin N → List Char) :
    ∀ (sched : List (Fin N)) (s : CSt N),
      InvB lineB s → InvB lineB (sched.foldl (lockStep lineA lineB) s)
  | [], _, h => h
  | k :: ks, s, h =>
      invB_lockRun lineA lineB ks (lockStep lineA lineB s k) (invB_step lineA lineB s k h)

theorem invA_lockInit {N : Nat} (lineA : Fin N → List Char) : InvA lineA (lockInit N) := by
  refine ⟨[], by simp, ?_, ?_⟩
  · intro k
    simp [lockInit, doneA]
  · simp [lockInit]

theorem invB_lockInit {N : Nat} (lineB : Fin N → List Char) : InvB lineB (lockInit N) := by
  refine ⟨[], by simp, ?_, ?_⟩
  · intro k
    simp [lockInit, doneB]
  · simp [lockInit]

theorem count_newline_flatten {N : Nat} (d : List (Fin N)) (line : Fin N → List Char)
    (hl : ∀ k, ∃ c, line k = c ++ ['\n'] ∧ '\n' ∉ c)
    (hlen : d.length = N) :
    ((d.map line).flatten.count '\n') = N := by
  rw [List.count_flatten, List.map_map]
  have hone : ∀ k, (line k).count '\n' = 1 := by
    intro k
    obtain ⟨c, hc, hni⟩ := hl k
    rw [hc, List.count_append, List.count_eq_zero.mpr hni]
    simp
  have hmapc : d.map (List.count '\n' ∘ line) = d.map fun _ => 1 := by
    apply List.map_congr_left
    intro k _
    exact hone k
  rw [hmapc]
  simp [List.map_const', List.sum_replicate, hlen]

/-- C5: for N concurrent callers (the filmGather.fail / success shape: each
appends its own line to the shared destination A under A's lock, then its
own line to the shared destination B under B's lock, byte by byte), any
complete interleaving leaves each destination equal to the concatenation of
the N intact lines in some order: no line is a byte-level mixture or
truncation of two inputs, each destination holds exactly (hence no fewer
than) N newline-terminated lines, and the two destinations are serialized
independently of each other (no joint lock relates them; the result holds
for both simultaneously under every schedule). -/
theorem c5_concurrent_writers (N : Nat) (lineA lineB : Fin N → List Char)
    (hA : ∀ k, ∃ c, lineA k = c ++ ['\n'] ∧ '\n' ∉ c)
    (hB : ∀ k, ∃ c, lineB k = c ++ ['\n'] ∧ '\n' ∉ c)
    (_hdist : ∀ k1 k2, lineA k1 = lineA k2 → k1 = k2)
    (sched : List (Fin N))
    (hdone : ∀ k, (lockRun lineA lineB sched).ph k = .doneW) :
    ∃ dA dB : List (Fin N),
      dA.Perm (List.finRange N) ∧ dB.Perm (List.finRange N) ∧
      (lockRun lineA lineB sched).fileA = (dA.map lineA).flatten ∧
      (lockRun lineA lineB sched).fileB = (dB.map lineB).flatten ∧
      (lockRun lineA lineB sched).fileA.count '\n' = N ∧
      (lockRun lineA lineB sched).fileB.count '\n' = N := by
  simp only [lockRun] at hdone ⊢
  obtain ⟨dA, hndA, hmemA, hrestA⟩ :=
    invA_lockRun lineA lineB sched (lockInit N) (invA_lockInit lineA)
  obtain ⟨dB, hndB, hmemB, hrestB⟩ :=
    invB_lockRun lineA lineB sched (lockInit N) (invB_lockInit lineB)
  have hallA : ∀ k, k ∈ dA := by
    intro k
    refine (hmemA k).mpr ?_
    rw [hdone k]
    trivial
  have hallB : ∀ k, k ∈ dB := by
    intro k
    refine (hmemB k).mpr ?_
    rw [hdone k]
    trivial
  have hpermA : dA.Perm (List.finRange N) :=
    (List.perm_ext_iff_of_nodup hndA (List.nodup_finRange N)).mpr
      (fun a => ⟨fun _ => List.mem_finRange a, fun _ => hallA a⟩)
  have hpermB : dB.Perm (List.finRange N) :=
    (List.perm_ext_iff_of_nodup hndB (List.nodup_finRange N)).mpr
      (fun a => ⟨fun _ => List.mem_finRange a, fun _ => hallB a⟩)
  have hlenA : dA.length = N := by
    rw [hpermA.length_eq, List.length_finRange]
  have hlenB : dB.length = N := by
    rw [hpermB.length_eq, List.length_finRange]
  have hfileA : (sched.foldl (lockStep lineA lineB) (lockInit N)).fileA =
      (dA.map lineA).flatten := by
    rcases hl : (sched.foldl (lockStep lineA lineB) (lockInit N)).lockA with _ | h0
    · rw [hl] at hrestA
      exact hrestA.1
    · rw [hl] at hrestA
      obtain ⟨p, t, -, hph0, -, -⟩ := hrestA
      rw [hdone h0] at hph0
      cases hph0
  have hfileB : (sched.foldl (lockStep lineA lineB) (lockInit N)).fileB =
      (dB.map lineB).flatten := by
    rcases hl : (sched.foldl (lockStep lineA lineB) (lockInit N)).lockB with _ | h0
    · rw [hl] at hrestB
      exact hrestB.1
    · rw [hl] at hrestB
      obtain ⟨p, t, -, hph0, -, -⟩ := hrestB
      rw [hdone h0] at hph0
      cases hph0
  refine ⟨dA, dB, hpermA, hpermB, hfileA, hfileB, ?_, ?_⟩
  · rw [hfileA]
    exact count_newline_flatten dA lineA hA hlenA
  · rw [hfileB]
    exact count_newline_flatten dB lineB hB hlenB

/-- Witness for C5 at two concrete callers under a concrete alternating
schedule. -/
theorem c5_concurrent_writers_witness :
    ((∀ k, ∃ c, wLineA k = c ++ ['\n'] ∧ '\n' ∉ c)
      ∧ (∀ k, ∃ c, wLineB k = c ++ ['\n'] ∧ '\n' ∉ c)
      ∧ (∀ k1 k2, wLineA k1 = wLineA k2 → k1 = k2)
      ∧ (∀ k, (lockRun wLineA wLineB wSched).ph k = .doneW))
  ∧ (∃ dA dB : List (Fin 2),
      dA.Perm (List.finRange 2) ∧ dB.Perm (List.finRange 2) ∧
      (lockRun wLineA wLineB wSched).fileA = (dA.map wLineA).flatten ∧
      (lockRun wLineA wLineB wSched).fileB = (dB.map wLineB).flatten ∧
      (lockRun wLineA wLineB wSched).fileA.count '\n' = 2 ∧
      (lockRun wLineA wLineB wSched).fileB.count '\n' = 2) := by
  have hA : ∀ k, ∃ c, wLineA k = c ++ ['\n'] ∧ '\n' ∉ c := by
    intro k
    fin_cases k
    · exact ⟨"1\tE1".data, by decide, by decide⟩
    · exact ⟨"2\tE2".data, by decide, by decide⟩
  have hB : ∀ k, ∃ c, wLineB k = c ++ ['\n'] ∧ '\n' ∉ c := by
    intro k
    fin_cases k
    · exact ⟨"1 E1".data, by decide, by decide⟩
    · exact ⟨"2 E2".data, by decide, by decide⟩
  refine ⟨⟨hA, hB, by decide, by decide⟩, ?_⟩
  exact c5_concurrent_writers 2 wLineA wLineB hA hB (by decide) wSched (by decide)
